import Mathlib

/-!
Verification of the cart/payment reconciliation core of a Django storefront
(`cart/views.py`), shallowly embedded in Lean 4.

The embedding models the database as explicit lists of rows and each Django
view as a pure function from the request data and the database to a response
together with the new database.  External collaborators (the Stripe client)
are passed in as function parameters.
-/

/-- A Python value as stored in a model field.  `tuple1 s` is the one-element
tuple `(s,)` — the value produced by an assignment with a trailing comma,
as in `payment_record.payment_intent_id = payment_intent["id"],`
(views.py line 253).  `nil` is Python `None` / an unset field. -/
inductive PyVal where
  | str (s : String)
  | tuple1 (s : String)
  | nil
deriving DecidableEq

/-- Database ORM equality of a stored field against a queried string:
only a plain string compares equal to a string. -/
def PyVal.isStrEq : PyVal → String → Bool
  | .str s, t => s == t
  | _, _ => false

/-- The `cart.models.Product` model (only the fields the core reads): `price` is in
minor currency units. -/
structure Product where
  id : Nat
  price : Nat
deriving DecidableEq

/-- The `cart.models.OrderItem` model: a line item of an order, with its variant
attributes and quantity. -/
structure OrderItem where
  id : Nat
  orderId : Nat
  productId : Nat
  colour : String
  size : String
  quantity : Nat
deriving DecidableEq

/-- The `cart.models.Order` model (the fields the reconciliation core touches). -/
structure Order where
  id : Nat
  ownerId : Nat
  ordered : Bool
  ordered_date : Option Nat
deriving DecidableEq

/-- The `cart.models.StripePayment` model — the PaymentIntentRecord.  Exactly one field
holds the processor-side intent identifier; it is a `PyVal` so that the
trailing-comma assignment of views.py line 253 can be represented faithfully. -/
structure StripePayment where
  id : Nat
  orderId : Nat
  payment_intent_id : PyVal
  amount : Rat
  successful : Bool
deriving DecidableEq

/-- The `cart.models.Payment` model — the append-only PaymentAttempt log used by the
PayPal path. -/
structure Payment where
  id : Nat
  orderId : Nat
  successful : Bool
  raw_response : String
  amount : Rat
  payment_method : String
deriving DecidableEq

/-- The `Payment.PAYPAL_PAYMENT_METHOD` discriminator constant. -/
def Payment.PAYPAL_PAYMENT_METHOD : String := "PayPal"

/-- The persistent store: one list of rows per model, plus a fresh-id counter
standing for the autoincrement primary keys. -/
structure DB where
  products : List Product
  orders : List Order
  orderItems : List OrderItem
  stripePayments : List StripePayment
  payments : List Payment
  nextId : Nat
deriving DecidableEq

/-- Django `Model.objects.get(...)`: succeeds only when exactly one row
matches; raises `DoesNotExist` on zero matches and `MultipleObjectsReturned`
on several. -/
def objectsGet (l : List α) (p : α → Bool) : Except String α :=
  match l.filter p with
  | [x] => .ok x
  | [] => .error "DoesNotExist"
  | _ => .error "MultipleObjectsReturned"

/-- Outcome of a view that may raise: `http404` models `get_object_or_404`
raising `Http404`; `uncaught` models an exception that escapes the view
(Django turns it into a 500 server error). -/
inductive ViewError where
  | http404
  | uncaught (name : String)
deriving DecidableEq

instance {ε α : Type} [DecidableEq ε] [DecidableEq α] : DecidableEq (Except ε α) := fun a b =>
  match a, b with
  | .error x, .error y =>
      if h : x = y then .isTrue (by rw [h]) else .isFalse (by simp [h])
  | .error _, .ok _ => .isFalse (by simp)
  | .ok _, .error _ => .isFalse (by simp)
  | .ok x, .ok y =>
      if h : x = y then .isTrue (by rw [h]) else .isFalse (by simp [h])

/-- Modelled from the spec: `get_or_set_order_session` lives in `cart/utils.py`,
which is not part of the given sources.  Per spec section 4.1 it returns the
caller's single open (`ordered=false`) order, creating one if none exists. -/
def get_or_set_order_session (ownerId : Nat) (db : DB) : Order × DB :=
  match db.orders.find? (fun o => o.ownerId == ownerId && o.ordered == false) with
  | some o => (o, db)
  | none =>
      let o : Order := { id := db.nextId, ownerId := ownerId, ordered := false, ordered_date := none }
      (o, { db with orders := db.orders ++ [o], nextId := db.nextId + 1 })

/-- Modelled from the spec: `Order.get_raw_total` lives in `cart/models.py`,
not part of the given sources.  Per spec section 4.3 it sums
`quantity * unit_price` over the order's current items, in minor currency
units.  A dangling product reference contributes 0 (it cannot occur in the
states considered here). -/
def Order.get_raw_total (db : DB) (orderId : Nat) : Nat :=
  (db.orderItems.filter (fun it => it.orderId == orderId)).foldl
    (fun acc it =>
      acc + it.quantity * (match db.products.find? (fun p => p.id == it.productId) with
                           | some p => p.price
                           | none => 0)) 0

/-- Modelled from the spec: `Order.get_total` lives in `cart/models.py`, not
part of the given sources.  Per spec section 4.3 it is the display (decimal)
form of the same sum, i.e. the raw minor-unit total divided by 100. -/
def Order.get_total (db : DB) (orderId : Nat) : Rat :=
  (Order.get_raw_total db orderId : Rat) / 100

/-- The key predicate of `ProductDetailView.form_valid`'s merge lookup:
`order.items.filter(product=..., colour=..., size=...)`. -/
def itemKeyMatch (orderId productId : Nat) (colour size : String) (it : OrderItem) : Bool :=
  it.orderId == orderId && it.productId == productId && it.colour == colour && it.size == size

/-- View `ProductDetailView.form_valid` (views.py 72-91): resolve the caller's open
order; if an item with the same (product, colour, size) exists, increment its
quantity by the requested quantity, else create a new item with that
quantity. -/
def ProductDetailView.form_valid (ownerId productId : Nat) (colour size : String)
    (qty : Nat) (db : DB) : DB :=
  let res := get_or_set_order_session ownerId db
  let order := res.1
  let db := res.2
  match db.orderItems.find? (itemKeyMatch order.id productId colour size) with
  | none =>
      { db with
        orderItems := db.orderItems ++
          [{ id := db.nextId, orderId := order.id, productId := productId,
             colour := colour, size := size, quantity := qty }],
        nextId := db.nextId + 1 }
  | some item =>
      { db with
        orderItems := db.orderItems.map (fun j =>
          if j.id == item.id then { j with quantity := j.quantity + qty } else j) }

/-- A sequence of add-to-cart submissions with one fixed (product, colour,
size) key, folded over the store. -/
def addSeq (ownerId productId : Nat) (colour size : String) (qtys : List Nat) (db : DB) : DB :=
  qtys.foldl (fun d q => ProductDetailView.form_valid ownerId productId colour size q d) db

/-- View `IncreaseQuantityView.get` (views.py 108-114): look the item up by primary
key alone — the request's identity is not consulted — and increment its
quantity. -/
def IncreaseQuantityView.get (_requestOwner pk : Nat) (db : DB) : Except ViewError DB :=
  match objectsGet db.orderItems (fun it => it.id == pk) with
  | .error "DoesNotExist" => .error .http404
  | .error e => .error (.uncaught e)
  | .ok _ =>
      .ok { db with orderItems := db.orderItems.map (fun j =>
              if j.id == pk then { j with quantity := j.quantity + 1 } else j) }

/-- View `DecreaseQuantityView.get` (views.py 117-126): look the item up by primary
key alone; delete it when its quantity is at most 1, else decrement. -/
def DecreaseQuantityView.get (_requestOwner pk : Nat) (db : DB) : Except ViewError DB :=
  match objectsGet db.orderItems (fun it => it.id == pk) with
  | .error "DoesNotExist" => .error .http404
  | .error e => .error (.uncaught e)
  | .ok item =>
      if item.quantity ≤ 1 then
        .ok { db with orderItems := db.orderItems.filter (fun j => !(j.id == pk)) }
      else
        .ok { db with orderItems := db.orderItems.map (fun j =>
                if j.id == pk then { j with quantity := j.quantity - 1 } else j) }

/-- View `RemoveFromCartView.get` (views.py 129-134): look the item up by primary
key alone and delete it unconditionally. -/
def RemoveFromCartView.get (_requestOwner pk : Nat) (db : DB) : Except ViewError DB :=
  match objectsGet db.orderItems (fun it => it.id == pk) with
  | .error "DoesNotExist" => .error .http404
  | .error e => .error (.uncaught e)
  | .ok _ => .ok { db with orderItems := db.orderItems.filter (fun j => !(j.id == pk)) }

/-- A processor-side payment intent as returned by
`stripe.PaymentIntent.create`: its identifier and the amount the call
requested. -/
structure StripeIntent where
  id : String
  amount : Nat
deriving DecidableEq

/-- Lookup `StripePayment.objects.get_or_create(order=order)` (views.py 223-225 and
252): return the existing record keyed by the order, or create one with
default (unset) fields. -/
def StripePayment.get_or_create (orderId : Nat) (db : DB) : StripePayment × DB :=
  match db.stripePayments.find? (fun r => r.orderId == orderId) with
  | some r => (r, db)
  | none =>
      let r : StripePayment :=
        { id := db.nextId, orderId := orderId, payment_intent_id := .nil,
          amount := 0, successful := false }
      (r, { db with stripePayments := db.stripePayments ++ [r], nextId := db.nextId + 1 })

/-- View `StripePaymentView.get_context_data` (views.py 237-272), persistence part:
create a processor intent for the open order's raw total, get-or-create the
StripePayment record keyed by the order, and store the intent identifier and
the display total on it.  The source assignment
`payment_record.payment_intent_id = payment_intent["id"],` carries a trailing
comma, so the value stored is the one-element tuple `(id,)`, modelled as
`PyVal.tuple1`.  `newIntentId` stands for the identifier the processor mints
for this call. -/
def StripePaymentView.get_context_data (ownerId : Nat) (newIntentId : String)
    (db : DB) : StripeIntent × DB :=
  let res := get_or_set_order_session ownerId db
  let order := res.1
  let db := res.2
  let intent : StripeIntent := { id := newIntentId, amount := Order.get_raw_total db order.id }
  let rc := StripePayment.get_or_create order.id db
  let record := rc.1
  let db := rc.2
  let db :=
    { db with stripePayments := db.stripePayments.map (fun r =>
        if r.id == record.id then
          { r with payment_intent_id := .tuple1 intent.id,
                   amount := Order.get_total db order.id }
        else r) }
  (intent, db)

/-- View `StripePaymentView.form_valid` (views.py 210-235), success branch for a
saved card: create-and-confirm a processor intent for the raw total,
get-or-create the StripePayment record, and store the intent identifier (a
plain string here — line 226 has no trailing comma) and the display total. -/
def StripePaymentView.form_valid (ownerId : Nat) (newIntentId : String)
    (db : DB) : DB :=
  let res := get_or_set_order_session ownerId db
  let order := res.1
  let db := res.2
  let intent : StripeIntent := { id := newIntentId, amount := Order.get_raw_total db order.id }
  let rc := StripePayment.get_or_create order.id db
  let record := rc.1
  let db := rc.2
  { db with stripePayments := db.stripePayments.map (fun r =>
      if r.id == record.id then
        { r with payment_intent_id := .str intent.id,
                 amount := Order.get_total db order.id }
      else r) }

/-- The parsed JSON body of the PayPal confirmation callback: the client's
asserted amount `purchase_units[0].amount.value` and the raw payload that is
re-serialised into `raw_response`. -/
structure PayPalBody where
  amountValue : Rat
  raw : String
deriving DecidableEq

/-- View `ConfirmOrderView.post` (views.py 275-290): resolve the caller's open
order, append a successful Payment row recording the client-supplied amount
and raw payload, mark the order placed with today's date, and acknowledge
with the JSON object whose single member is "data": "Success" (returned here
as the key-value pair). -/
def ConfirmOrderView.post (ownerId today : Nat) (body : PayPalBody) (db : DB) :
    (String × String) × DB :=
  let res := get_or_set_order_session ownerId db
  let order := res.1
  let db := res.2
  let payment : Payment :=
    { id := db.nextId, orderId := order.id, successful := true,
      raw_response := body.raw, amount := body.amountValue,
      payment_method := Payment.PAYPAL_PAYMENT_METHOD }
  let db := { db with payments := db.payments ++ [payment], nextId := db.nextId + 1 }
  let db := { db with orders := db.orders.map (fun o =>
      if o.id == order.id then { o with ordered := true, ordered_date := some today } else o) }
  (("data", "Success"), db)

/-- Failure modes of `stripe.Webhook.construct_event`: a `ValueError` for a
malformed payload, or a `SignatureVerificationError`. -/
inductive ConstructError where
  | invalidPayload
  | invalidSignature
deriving DecidableEq

/-- A verified Stripe event: its kind and the intent identifier carried in
`event.data.object["id"]`. -/
structure StripeEvent where
  type : String
  intentId : String
deriving DecidableEq

/-- An inbound webhook request: the raw payload and the optional
`HTTP_STRIPE_SIGNATURE` header. -/
structure WebhookRequest where
  payload : String
  sigHeader : Option String
deriving DecidableEq

/-- What the webhook view hands back to Django: an explicit `HttpResponse`
with a status code, or an exception escaping the view (which Django reports
as a server error, neither 200 nor 400). -/
inductive WebhookOutcome where
  | response (status : Nat)
  | uncaught (name : String)
deriving DecidableEq

/-- View `stripe_webhook_view` (views.py 307-342).  `construct` models
`stripe.Webhook.construct_event` over the raw payload and signature header;
`now` models `timezone.now()`.  A missing signature header raises `KeyError`
at `request.META['HTTP_STRIPE_SIGNATURE']`; a failed construction yields 400;
a verified event of any kind other than payment_intent.succeeded yields 400;
otherwise the StripePayment record is fetched by intent identifier
(`DoesNotExist` escapes uncaught), marked successful, and its order is placed
with the current timestamp, yielding 200. -/
def stripe_webhook_view (construct : String → String → Except ConstructError StripeEvent)
    (now : Nat) (req : WebhookRequest) (db : DB) : WebhookOutcome × DB :=
  match req.sigHeader with
  | none => (.uncaught "KeyError", db)
  | some sig =>
    match construct req.payload sig with
    | .error _ => (.response 400, db)
    | .ok event =>
      if event.type == "payment_intent.succeeded" then
        match objectsGet db.stripePayments
            (fun r => r.payment_intent_id.isStrEq event.intentId) with
        | .error e => (.uncaught ("StripePayment." ++ e), db)
        | .ok sp =>
          let db : DB := { db with stripePayments := db.stripePayments.map (fun r =>
              if r.id == sp.id then { r with successful := true } else r) }
          let db : DB := { db with orders := db.orders.map (fun o =>
              if o.id == sp.orderId then
                { o with ordered := true, ordered_date := some now } else o) }
          (.response 200, db)
      else
        (.response 400, db)

/-- C1: the claimed idempotency of confirmation fails on the code.
Re-delivering the same verified payment_intent.succeeded webhook for an
order that is already placed re-runs the whole update and overwrites
`ordered_date` with the later timestamp (here 100 becomes 200), and invoking
the synchronous confirmation callback a second time appends a second
successful payment attempt to the log. -/
theorem claim_C1_bug :
    let construct : String → String → Except ConstructError StripeEvent :=
      fun _ _ => .ok { type := "payment_intent.succeeded", intentId := "pi_1" }
    let req : WebhookRequest := { payload := "p", sigHeader := some "s" }
    let db0 : DB :=
      { products := [],
        orders := [{ id := 1, ownerId := 1, ordered := false, ordered_date := none }],
        orderItems := [],
        stripePayments := [{ id := 2, orderId := 1, payment_intent_id := .str "pi_1",
                             amount := 0, successful := false }],
        payments := [], nextId := 3 }
    let d1 := (stripe_webhook_view construct 100 req db0).2
    let d2 := (stripe_webhook_view construct 200 req d1).2
    let body : PayPalBody := { amountValue := 10, raw := "r" }
    let e1 := (ConfirmOrderView.post 1 100 body db0).2
    let e2 := (ConfirmOrderView.post 1 100 body e1).2
    (d1.orders.map Order.ordered_date = [some 100]) ∧
    (d2.orders.map Order.ordered_date = [some 200]) ∧
    (e1.payments.filter Payment.successful).length = 1 ∧
    (e2.payments.filter Payment.successful).length = 2 := by
  decide

/-- C5: the claimed authorization boundary fails on the code.  Item 20
belongs to the open order of caller 2, yet requests issued by caller 1
succeed on all three views — the lookup is by primary key alone — and mutate
or delete caller 2's item instead of failing with a not-found error. -/
theorem claim_C5_bug :
    let db0 : DB :=
      { products := [],
        orders := [{ id := 1, ownerId := 1, ordered := false, ordered_date := none },
                   { id := 2, ownerId := 2, ordered := false, ordered_date := none }],
        orderItems := [{ id := 20, orderId := 2, productId := 7, colour := "red",
                         size := "M", quantity := 2 }],
        stripePayments := [], payments := [], nextId := 30 }
    (db0.orderItems.map OrderItem.orderId = [2]) ∧
    ((db0.orders.filter (fun o => o.id == 2)).map Order.ownerId = [2]) ∧
    IncreaseQuantityView.get 1 20 db0 =
      .ok { db0 with orderItems := [{ id := 20, orderId := 2, productId := 7,
                                      colour := "red", size := "M", quantity := 3 }] } ∧
    DecreaseQuantityView.get 1 20 db0 =
      .ok { db0 with orderItems := [{ id := 20, orderId := 2, productId := 7,
                                      colour := "red", size := "M", quantity := 1 }] } ∧
    RemoveFromCartView.get 1 20 db0 = .ok { db0 with orderItems := [] } := by
  decide

/-- The concrete store of the C8 scenario: one open order for owner 1 holding
two units of a product priced 1000 minor units, and no payment record yet. -/
def dbC8 : DB :=
  { products := [{ id := 7, price := 1000 }],
    orders := [{ id := 1, ownerId := 1, ordered := false, ordered_date := none }],
    orderItems := [{ id := 2, orderId := 1, productId := 7, colour := "red",
                     size := "M", quantity := 2 }],
    stripePayments := [], payments := [], nextId := 3 }

/-- C8: the get-or-create reuse holds (two calls leave exactly one record
keyed by the order), but the stored fields do not equal those of the freshly
created intent: the trailing-comma assignment stores the one-element tuple
of the identifier rather than the identifier, and the stored amount is the
display total 20 while the intent was created for the raw total 2000. -/
theorem claim_C8_bug :
    ((StripePaymentView.get_context_data 1 "pi_B"
        (StripePaymentView.get_context_data 1 "pi_A" dbC8).2).2.stripePayments.map
          StripePayment.orderId = [1]) ∧
    ((StripePaymentView.get_context_data 1 "pi_B"
        (StripePaymentView.get_context_data 1 "pi_A" dbC8).2).2.stripePayments.map
          StripePayment.payment_intent_id = [PyVal.tuple1 "pi_B"]) ∧
    (PyVal.tuple1 "pi_B" ≠ PyVal.str "pi_B") ∧
    (StripePaymentView.get_context_data 1 "pi_B"
        (StripePaymentView.get_context_data 1 "pi_A" dbC8).2).1 =
      { id := "pi_B", amount := 2000 } ∧
    ((StripePaymentView.get_context_data 1 "pi_B"
        (StripePaymentView.get_context_data 1 "pi_A" dbC8).2).2.stripePayments.map
          StripePayment.amount = [(20 : Rat)]) ∧
    ((20 : Rat) ≠ (2000 : Rat)) := by
  have hmap : (StripePaymentView.get_context_data 1 "pi_B"
      (StripePaymentView.get_context_data 1 "pi_A" dbC8).2).2.stripePayments.map
        StripePayment.amount = [Order.get_total dbC8 1] := rfl
  have hraw : Order.get_raw_total dbC8 1 = 2000 := by decide
  have htot : Order.get_total dbC8 1 = 20 := by
    rw [Order.get_total, hraw]; norm_num
  refine ⟨by decide, by decide, by decide, by decide, ?_, by norm_num⟩
  rw [hmap, htot]

/-- C9: the claimed immutability of placed orders fails on the code.  The
only order in the store is placed (`ordered=true`), yet an increase request
on its item succeeds — the lookup does not filter on open orders — and
changes the placed order's item set. -/
theorem claim_C9_bug :
    let db0 : DB :=
      { products := [],
        orders := [{ id := 5, ownerId := 1, ordered := true, ordered_date := some 50 }],
        orderItems := [{ id := 10, orderId := 5, productId := 7, colour := "red",
                         size := "M", quantity := 2 }],
        stripePayments := [], payments := [], nextId := 11 }
    let db1 : DB := { db0 with orderItems := [{ id := 10, orderId := 5, productId := 7,
                                                colour := "red", size := "M", quantity := 3 }] }
    (db0.orders.map Order.ordered = [true]) ∧
    IncreaseQuantityView.get 1 10 db0 = .ok db1 ∧
    db1.orderItems ≠ db0.orderItems := by
  decide

/-- An empty store, used to instantiate the universally quantified theorems. -/
def dbEmpty : DB :=
  { products := [], orders := [], orderItems := [], stripePayments := [],
    payments := [], nextId := 0 }

/-- C2: for every inbound webhook request the handler responds 400 and leaves
the store unchanged when the payload/signature constructor rejects (malformed
payload or failed signature verification) and when the verified event's kind
is anything other than payment_intent.succeeded; and it responds 200 only
when the constructor accepted the request and the event kind is
payment_intent.succeeded. -/
theorem claim_C2 (construct : String → String → Except ConstructError StripeEvent)
    (now : Nat) (req : WebhookRequest) (db : DB) :
    (∀ sig e, req.sigHeader = some sig → construct req.payload sig = .error e →
      stripe_webhook_view construct now req db = (.response 400, db)) ∧
    (∀ sig ev, req.sigHeader = some sig → construct req.payload sig = .ok ev →
      ev.type ≠ "payment_intent.succeeded" →
      stripe_webhook_view construct now req db = (.response 400, db)) ∧
    (∀ db', stripe_webhook_view construct now req db = (.response 200, db') →
      ∃ sig ev, req.sigHeader = some sig ∧ construct req.payload sig = .ok ev ∧
        ev.type = "payment_intent.succeeded") := by
  refine ⟨?_, ?_, ?_⟩
  · intro sig e hsig hc
    simp [stripe_webhook_view, hsig, hc]
  · intro sig ev hsig hc hty
    simp [stripe_webhook_view, hsig, hc, hty]
  · intro db' h
    cases hs : req.sigHeader with
    | none => simp [stripe_webhook_view, hs] at h
    | some sig =>
        cases hc : construct req.payload sig with
        | error e => simp [stripe_webhook_view, hs, hc] at h
        | ok ev =>
            by_cases hty : ev.type = "payment_intent.succeeded"
            · exact ⟨sig, ev, rfl, hc, hty⟩
            · simp [stripe_webhook_view, hs, hc, hty] at h

/-- Witness for C2: a constructor that rejects every payload yields a 400
response and an unchanged store. -/
theorem claim_C2_witness :
    stripe_webhook_view (fun _ _ => .error .invalidPayload) 0
      { payload := "p", sigHeader := some "s" } dbEmpty = (.response 400, dbEmpty) :=
  (claim_C2 (fun _ _ => .error .invalidPayload) 0
    { payload := "p", sigHeader := some "s" } dbEmpty).1 "s" .invalidPayload rfl rfl

/-- C6: a verified webhook event of kind payment_intent.succeeded whose
intent identifier matches exactly one stored PaymentIntentRecord marks that
record successful, places its order with the current timestamp as
ordered_date, and responds 200. -/
theorem claim_C6 (construct : String → String → Except ConstructError StripeEvent)
    (now : Nat) (req : WebhookRequest) (db : DB) (sig : String) (ev : StripeEvent)
    (sp : StripePayment)
    (hsig : req.sigHeader = some sig)
    (hc : construct req.payload sig = .ok ev)
    (hty : ev.type = "payment_intent.succeeded")
    (hf : db.stripePayments.filter (fun r => r.payment_intent_id.isStrEq ev.intentId) = [sp]) :
    stripe_webhook_view construct now req db =
      (.response 200,
        { db with
          stripePayments := db.stripePayments.map (fun r =>
            if r.id == sp.id then { r with successful := true } else r),
          orders := db.orders.map (fun o =>
            if o.id == sp.orderId then
              { o with ordered := true, ordered_date := some now } else o) }) := by
  simp [stripe_webhook_view, hsig, hc, hty, objectsGet, hf]

/-- Witness for C6: a concrete matching record is marked successful and its
order becomes placed at time 77 with response 200. -/
theorem claim_C6_witness :
    stripe_webhook_view (fun _ _ => .ok { type := "payment_intent.succeeded", intentId := "pi_9" })
      77 { payload := "p", sigHeader := some "s" }
      { products := [], orders := [{ id := 1, ownerId := 1, ordered := false, ordered_date := none }],
        orderItems := [],
        stripePayments := [{ id := 2, orderId := 1, payment_intent_id := .str "pi_9",
                             amount := 0, successful := false }],
        payments := [], nextId := 3 } =
      (.response 200,
        { products := [], orders := [{ id := 1, ownerId := 1, ordered := true, ordered_date := some 77 }],
          orderItems := [],
          stripePayments := [{ id := 2, orderId := 1, payment_intent_id := .str "pi_9",
                               amount := 0, successful := true }],
          payments := [], nextId := 3 }) :=
  claim_C6 (fun _ _ => .ok { type := "payment_intent.succeeded", intentId := "pi_9" })
    77 { payload := "p", sigHeader := some "s" }
    { products := [], orders := [{ id := 1, ownerId := 1, ordered := false, ordered_date := none }],
      orderItems := [],
      stripePayments := [{ id := 2, orderId := 1, payment_intent_id := .str "pi_9",
                           amount := 0, successful := false }],
      payments := [], nextId := 3 }
    "s" { type := "payment_intent.succeeded", intentId := "pi_9" }
    { id := 2, orderId := 1, payment_intent_id := .str "pi_9", amount := 0, successful := false }
    rfl rfl rfl (by decide)

/-- C10: a verified payment_intent.succeeded event whose intent identifier
matches no stored record makes the lookup raise DoesNotExist, which escapes
the view — the outcome is an uncaught exception, not a 200 or 400 response —
and the store is unchanged. -/
theorem claim_C10 (construct : String → String → Except ConstructError StripeEvent)
    (now : Nat) (req : WebhookRequest) (db : DB) (sig : String) (ev : StripeEvent)
    (hsig : req.sigHeader = some sig)
    (hc : construct req.payload sig = .ok ev)
    (hty : ev.type = "payment_intent.succeeded")
    (hf : db.stripePayments.filter (fun r => r.payment_intent_id.isStrEq ev.intentId) = []) :
    stripe_webhook_view construct now req db = (.uncaught "StripePayment.DoesNotExist", db) ∧
    ∀ s db2, stripe_webhook_view construct now req db ≠ (.response s, db2) := by
  have h : stripe_webhook_view construct now req db =
      (.uncaught "StripePayment.DoesNotExist", db) := by
    simp [stripe_webhook_view, hsig, hc, hty, objectsGet, hf]
  exact ⟨h, fun s db2 hcontra => by rw [h] at hcontra; simp at hcontra⟩

/-- Witness for C10: with no stored record at all, the verified succeeded
event for pi_9 ends in the uncaught DoesNotExist outcome. -/
theorem claim_C10_witness :
    stripe_webhook_view (fun _ _ => .ok { type := "payment_intent.succeeded", intentId := "pi_9" })
      0 { payload := "p", sigHeader := some "s" } dbEmpty =
      (.uncaught "StripePayment.DoesNotExist", dbEmpty) :=
  (claim_C10 (fun _ _ => .ok { type := "payment_intent.succeeded", intentId := "pi_9" })
    0 { payload := "p", sigHeader := some "s" } dbEmpty
    "s" { type := "payment_intent.succeeded", intentId := "pi_9" }
    rfl rfl rfl (by decide)).1

/-- When an open order for the caller already exists, the session resolver
returns it and leaves the store unchanged. -/
theorem get_or_set_found (ownerId : Nat) (db : DB) (o : Order)
    (hfind : db.orders.find? (fun x => x.ownerId == ownerId && x.ordered == false) = some o) :
    get_or_set_order_session ownerId db = (o, db) := by
  unfold get_or_set_order_session
  rw [hfind]

/-- C7: a confirmation callback whose JSON body carries
purchase_units[0].amount.value appends a Payment attempt that is successful,
holds the client-supplied amount and the raw payload, and is tagged with the
PayPal discriminator; it places the caller's open order with today's date as
ordered_date; and it acknowledges with the JSON member "data": "Success". -/
theorem claim_C7 (ownerId today : Nat) (body : PayPalBody) (db : DB) (o : Order)
    (hfind : db.orders.find? (fun x => x.ownerId == ownerId && x.ordered == false) = some o) :
    ConfirmOrderView.post ownerId today body db =
      (("data", "Success"),
        { db with
          payments := db.payments ++
            [{ id := db.nextId, orderId := o.id, successful := true,
               raw_response := body.raw, amount := body.amountValue,
               payment_method := Payment.PAYPAL_PAYMENT_METHOD }],
          orders := db.orders.map (fun x =>
            if x.id == o.id then { x with ordered := true, ordered_date := some today } else x),
          nextId := db.nextId + 1 }) := by
  simp [ConfirmOrderView.post, get_or_set_found ownerId db o hfind]

/-- Witness for C7: a concrete open order is placed on day 42 and the
concrete body's amount 25 is logged in a successful PayPal attempt. -/
theorem claim_C7_witness :
    ConfirmOrderView.post 1 42 { amountValue := 25, raw := "raw" }
      { products := [], orders := [{ id := 1, ownerId := 1, ordered := false, ordered_date := none }],
        orderItems := [], stripePayments := [], payments := [], nextId := 5 } =
      (("data", "Success"),
        { products := [], orders := [{ id := 1, ownerId := 1, ordered := true, ordered_date := some 42 }],
          orderItems := [], stripePayments := [],
          payments := [{ id := 5, orderId := 1, successful := true, raw_response := "raw",
                         amount := 25, payment_method := "PayPal" }],
          nextId := 6 }) :=
  claim_C7 1 42 { amountValue := 25, raw := "raw" }
    { products := [], orders := [{ id := 1, ownerId := 1, ordered := false, ordered_date := none }],
      orderItems := [], stripePayments := [], payments := [], nextId := 5 }
    { id := 1, ownerId := 1, ordered := false, ordered_date := none } rfl

/-- C4: with exactly one item carrying the requested primary key, decrease
removes the item entirely when its quantity is 1; decrements by exactly one
without removing when the quantity is at least 2; and from a store in which
every item has quantity at least 1, every store it produces again has every
quantity at least 1 — no item ever persists at quantity 0 or below. -/
theorem claim_C4 (caller pk : Nat) (db : DB) (item : OrderItem)
    (hf : db.orderItems.filter (fun it => it.id == pk) = [item]) :
    (item.quantity = 1 →
      DecreaseQuantityView.get caller pk db =
        .ok { db with orderItems := db.orderItems.filter (fun j => !(j.id == pk)) }) ∧
    (2 ≤ item.quantity →
      DecreaseQuantityView.get caller pk db =
        .ok { db with orderItems := db.orderItems.map (fun j =>
                if j.id == pk then { j with quantity := j.quantity - 1 } else j) }) ∧
    (∀ db', DecreaseQuantityView.get caller pk db = .ok db' →
      (∀ j ∈ db.orderItems, 1 ≤ j.quantity) → ∀ j ∈ db'.orderItems, 1 ≤ j.quantity) := by
  have hget : objectsGet db.orderItems (fun it => it.id == pk) = .ok item := by
    simp [objectsGet, hf]
  refine ⟨?_, ?_, ?_⟩
  · intro hq
    simp [DecreaseQuantityView.get, hget, hq]
  · intro hq
    have : ¬ item.quantity ≤ 1 := by omega
    simp [DecreaseQuantityView.get, hget, this]
  · intro db' hok hall j hj
    simp only [DecreaseQuantityView.get, hget] at hok
    by_cases hq : item.quantity ≤ 1
    · rw [if_pos hq] at hok
      injection hok with hdb
      subst hdb
      have hj' : j ∈ db.orderItems.filter (fun jj => !(jj.id == pk)) := hj
      exact hall j (List.mem_filter.mp hj').1
    · rw [if_neg hq] at hok
      injection hok with hdb
      subst hdb
      have hj' : j ∈ db.orderItems.map (fun jj =>
          if jj.id == pk then { jj with quantity := jj.quantity - 1 } else jj) := hj
      obtain ⟨j0, hj0, hj0eq⟩ := List.mem_map.mp hj'
      by_cases hid : (j0.id == pk) = true
      · rw [if_pos hid] at hj0eq
        have hj0mem : j0 ∈ db.orderItems.filter (fun it => it.id == pk) :=
          List.mem_filter.mpr ⟨hj0, hid⟩
        rw [hf] at hj0mem
        have hj0item : j0 = item := by simpa using hj0mem
        subst hj0eq
        simp only [hj0item]
        omega
      · rw [if_neg hid] at hj0eq
        subst hj0eq
        exact hall j0 hj0

/-- Witness for C4: the single item with quantity 1 is removed entirely by a
decrease request. -/
theorem claim_C4_witness :
    DecreaseQuantityView.get 0 5
      { products := [], orders := [],
        orderItems := [{ id := 5, orderId := 1, productId := 1, colour := "red",
                         size := "M", quantity := 1 }],
        stripePayments := [], payments := [], nextId := 9 } =
      .ok { products := [], orders := [], orderItems := [], stripePayments := [],
            payments := [], nextId := 9 } :=
  (claim_C4 0 5
    { products := [], orders := [],
      orderItems := [{ id := 5, orderId := 1, productId := 1, colour := "red",
                       size := "M", quantity := 1 }],
      stripePayments := [], payments := [], nextId := 9 }
    { id := 5, orderId := 1, productId := 1, colour := "red", size := "M", quantity := 1 }
    (by decide)).1 rfl

/-- Filtering after a map that cannot change whether an element satisfies the
predicate equals mapping after filtering. -/
theorem filter_map_pred_invariant (p : α → Bool) (f : α → α) (l : List α)
    (h : ∀ a, p (f a) = p a) : (l.map f).filter p = (l.filter p).map f := by
  induction l with
  | nil => rfl
  | cons a t ih =>
      simp only [List.map_cons, List.filter_cons, h a]
      by_cases hp : p a = true
      · simp [hp, ih]
      · simp [hp, ih]

/-- A filter returning a single element means the first match of find? is
that element. -/
theorem find?_of_filter_singleton (p : α → Bool) (l : List α) (a : α)
    (h : l.filter p = [a]) : l.find? p = some a := by
  induction l with
  | nil => simp at h
  | cons x t ih =>
      rw [List.filter_cons] at h
      by_cases hp : p x = true
      · rw [if_pos hp] at h
        obtain ⟨h1, h2⟩ := List.cons_eq_cons.mp h
        rw [List.find?_cons_of_pos _ hp, h1]
      · rw [if_neg hp] at h
        rw [List.find?_cons_of_neg _ hp]
        exact ih h

/-- An empty filter means find? fails. -/
theorem find?_of_filter_nil (p : α → Bool) (l : List α) (h : l.filter p = []) :
    l.find? p = none := by
  rw [List.find?_eq_none]
  intro x hx hpx
  have hmem : x ∈ l.filter p := List.mem_filter.mpr ⟨hx, hpx⟩
  rw [h] at hmem
  simp at hmem

/-- Bumping the quantity of the item with a given id does not change whether
any element matches the (order, product, colour, size) key. -/
theorem itemKeyMatch_bump (oid pid : Nat) (c s : String) (iid q : Nat) (a : OrderItem) :
    itemKeyMatch oid pid c s
      (if a.id == iid then { a with quantity := a.quantity + q } else a) =
      itemKeyMatch oid pid c s a := by
  by_cases h : (a.id == iid) = true
  · rw [if_pos h]; rfl
  · rw [if_neg h]

/-- One merging add on an order that already holds exactly one item for the
key: the orders table is untouched and the key's single item has its
quantity incremented by the requested amount. -/
theorem form_valid_merge (ownerId productId : Nat) (colour size : String) (q : Nat)
    (db : DB) (o : Order) (item : OrderItem)
    (hfind : db.orders.find? (fun x => x.ownerId == ownerId && x.ordered == false) = some o)
    (hf : db.orderItems.filter (itemKeyMatch o.id productId colour size) = [item]) :
    (ProductDetailView.form_valid ownerId productId colour size q db).orders = db.orders ∧
    (ProductDetailView.form_valid ownerId productId colour size q db).orderItems.filter
      (itemKeyMatch o.id productId colour size) =
      [{ item with quantity := item.quantity + q }] := by
  have hfi : db.orderItems.find? (itemKeyMatch o.id productId colour size) = some item :=
    find?_of_filter_singleton _ _ _ hf
  constructor
  · simp only [ProductDetailView.form_valid, get_or_set_found ownerId db o hfind, hfi]
  · simp only [ProductDetailView.form_valid, get_or_set_found ownerId db o hfind, hfi]
    rw [filter_map_pred_invariant _ _ _
      (itemKeyMatch_bump o.id productId colour size item.id q), hf]
    simp

/-- One creating add on an order with no item for the key: the orders table
is untouched and the key now has exactly the freshly created item with the
requested quantity. -/
theorem form_valid_create (ownerId productId : Nat) (colour size : String) (q : Nat)
    (db : DB) (o : Order)
    (hfind : db.orders.find? (fun x => x.ownerId == ownerId && x.ordered == false) = some o)
    (hf : db.orderItems.filter (itemKeyMatch o.id productId colour size) = []) :
    (ProductDetailView.form_valid ownerId productId colour size q db).orders = db.orders ∧
    (ProductDetailView.form_valid ownerId productId colour size q db).orderItems.filter
      (itemKeyMatch o.id productId colour size) =
      [{ id := db.nextId, orderId := o.id, productId := productId, colour := colour,
         size := size, quantity := q }] := by
  have hfi : db.orderItems.find? (itemKeyMatch o.id productId colour size) = none :=
    find?_of_filter_nil _ _ hf
  constructor
  · simp only [ProductDetailView.form_valid, get_or_set_found ownerId db o hfind, hfi]
  · simp only [ProductDetailView.form_valid, get_or_set_found ownerId db o hfind, hfi]
    rw [List.filter_append, hf]
    simp [itemKeyMatch]

/-- Unfolding one step of a sequence of adds. -/
theorem addSeq_cons (ownerId productId : Nat) (colour size : String) (q : Nat)
    (qs : List Nat) (db : DB) :
    addSeq ownerId productId colour size (q :: qs) db =
      addSeq ownerId productId colour size qs
        (ProductDetailView.form_valid ownerId productId colour size q db) := rfl

/-- Any sequence of merging adds starting from exactly one item for the key
keeps exactly one item for the key, accumulating the sum of the requested
quantities, and leaves the orders table untouched. -/
theorem addSeq_merge (ownerId productId : Nat) (colour size : String) (qtys : List Nat) :
    ∀ (db : DB) (o : Order) (item : OrderItem),
      db.orders.find? (fun x => x.ownerId == ownerId && x.ordered == false) = some o →
      db.orderItems.filter (itemKeyMatch o.id productId colour size) = [item] →
      (addSeq ownerId productId colour size qtys db).orders = db.orders ∧
      ∃ u : OrderItem,
        (addSeq ownerId productId colour size qtys db).orderItems.filter
          (itemKeyMatch o.id productId colour size) = [u] ∧
        u.quantity = item.quantity + qtys.sum := by
  induction qtys with
  | nil =>
      intro db o item hfind hf
      exact ⟨rfl, item, hf, by simp⟩
  | cons q qs ih =>
      intro db o item hfind hf
      have hstep := form_valid_merge ownerId productId colour size q db o item hfind hf
      have hfind' : (ProductDetailView.form_valid ownerId productId colour size q db).orders.find?
          (fun x => x.ownerId == ownerId && x.ordered == false) = some o := by
        rw [hstep.1]; exact hfind
      have hrec := ih (ProductDetailView.form_valid ownerId productId colour size q db) o
        { item with quantity := item.quantity + q } hfind' hstep.2
      rw [addSeq_cons]
      constructor
      · rw [hrec.1, hstep.1]
      · obtain ⟨u, hu1, hu2⟩ := hrec.2
        refine ⟨u, hu1, ?_⟩
        rw [hu2]
        simp only [List.sum_cons]
        omega

/-- C3: starting from an open order holding no item for the given
(product, colour, size) key, any nonempty sequence of add-to-cart
submissions for that key leaves exactly one item for the key on the order,
and its quantity is the sum of all requested quantities (in particular a
single add creates one item with the requested quantity). -/
theorem claim_C3 (ownerId productId : Nat) (colour size : String) (q : Nat) (qs : List Nat)
    (db : DB) (o : Order)
    (hfind : db.orders.find? (fun x => x.ownerId == ownerId && x.ordered == false) = some o)
    (hnone : db.orderItems.filter (itemKeyMatch o.id productId colour size) = []) :
    ∃ u : OrderItem,
      (addSeq ownerId productId colour size (q :: qs) db).orderItems.filter
        (itemKeyMatch o.id productId colour size) = [u] ∧
      u.quantity = (q :: qs).sum := by
  have hcreate := form_valid_create ownerId productId colour size q db o hfind hnone
  have hfind' : (ProductDetailView.form_valid ownerId productId colour size q db).orders.find?
      (fun x => x.ownerId == ownerId && x.ordered == false) = some o := by
    rw [hcreate.1]; exact hfind
  have hrec := addSeq_merge ownerId productId colour size qs
    (ProductDetailView.form_valid ownerId productId colour size q db) o
    { id := db.nextId, orderId := o.id, productId := productId, colour := colour,
      size := size, quantity := q } hfind' hcreate.2
  obtain ⟨u, hu1, hu2⟩ := hrec.2
  rw [addSeq_cons]
  refine ⟨u, hu1, ?_⟩
  rw [hu2]
  simp

/-- Witness for C3: two adds of quantities 2 and 3 for one key on a fresh
open order leave a single item of quantity 5. -/
theorem claim_C3_witness :
    ∃ u : OrderItem,
      (addSeq 1 7 "red" "M" [2, 3]
        { products := [],
          orders := [{ id := 1, ownerId := 1, ordered := false, ordered_date := none }],
          orderItems := [], stripePayments := [], payments := [],
          nextId := 2 }).orderItems.filter (itemKeyMatch 1 7 "red" "M") = [u] ∧
      u.quantity = 5 :=
  claim_C3 1 7 "red" "M" 2 [3]
    { products := [],
      orders := [{ id := 1, ownerId := 1, ordered := false, ordered_date := none }],
      orderItems := [], stripePayments := [], payments := [], nextId := 2 }
    { id := 1, ownerId := 1, ordered := false, ordered_date := none } rfl rfl
